import Mathlib

/-!
Shallow embedding of the traffic-shaper controller
(src/shaper/shaping-controller.py) and proofs about it.

Modelling conventions:
- A JSON policy descriptor (one entry of /app/policies.json) is the
  structure `Policy`: every attribute the code reads with `policy['k']`
  or `'k' in policy` is an `Option` field (absent key = `none`), except
  the `type` discriminant which the code always reads.
  Spec kind names map to code type strings:
  none = "none", priority-fair-queue = "cake",
  network-emulation = "netem", hierarchical-bandwidth = "htb".
- `run_command` (a subprocess call) is replaced by an oracle
  `R : String → CmdResult` giving the outcome of each shell command; the
  model additionally records the list of commands actually invoked, in
  order, so that claims about kernel mutation can be stated.
- The process-global dict `current_policy` is the structure
  `PolicyRecord`, threaded explicitly through the operations.
- Opening and parsing /app/policies.json may raise; the catalog argument
  is `Option Catalog` (`none` = the load raised an exception).
-/

/-- One class entry of an htb policy: `rate` is read with
`class_cfg['rate']`, `ceil` with `class_cfg.get('ceil', class_cfg['rate'])`. -/
structure ClassCfg where
  rate : String
  ceil : Option String
  deriving DecidableEq, Repr

/-- A policy descriptor as the code reads it from the JSON catalog. -/
structure Policy where
  type : String
  bandwidth : Option String := none
  rtt : Option String := none
  features : Option (List String) := none
  delay : Option String := none
  jitter : Option String := none
  loss : Option String := none
  rate : Option String := none
  total_bandwidth : Option String := none
  classes : Option (List ClassCfg) := none
  deriving DecidableEq, Repr

/-- Result of one `run_command` call: success flag, stdout, stderr. -/
structure CmdResult where
  success : Bool
  output : String
  error : String
  deriving DecidableEq, Repr

/-- The process-global `current_policy` dict: initially
`\x7b"name": "none", "status": "inactive"\x7d` (no config key); after a
successful apply it also holds the applied descriptor under `config`. -/
structure PolicyRecord where
  name : String
  status : String
  config : Option Policy
  deriving DecidableEq, Repr

/-- Initial value of `current_policy` at process start (line 10). -/
def initialRecord : PolicyRecord :=
  { name := "none", status := "inactive", config := none }

/-- The config dict the code stores for the special `no_shaping` policy:
`\x7b"type": "none"\x7d` (line 34). -/
def noneConfig : Policy := { type := "none" }

/-- The policy catalog: the parsed contents of /app/policies.json. -/
abbrev Catalog := List (String × Policy)

/-- Membership test and lookup mirroring `policy_name not in policies`
followed by `policies[policy_name]` (lines 41-44). -/
def lookupPolicy : List (String × Policy) → String → Option Policy
  | [], _ => none
  | (n, p) :: rest, name => if name = n then some p else lookupPolicy rest name

/-- The command issued by `clear_shaping` (line 22). -/
def clearCmd (iface : String) : String :=
  "tc qdisc del dev " ++ iface ++ " root 2>/dev/null || true"

/-- Command built by the cake branch (lines 47-52); `none` models the
KeyError raised when `bandwidth` is absent. -/
def cakeCmd (p : Policy) (iface : String) : Option String :=
  match p.bandwidth with
  | none => none
  | some bw =>
    let cmd := "tc qdisc add dev " ++ iface ++ " root cake bandwidth " ++ bw
    let cmd := match p.rtt with
      | none => cmd
      | some r => cmd ++ " rtt " ++ r
    let cmd := match p.features with
      | none => cmd
      | some fs => cmd ++ " " ++ String.intercalate " " fs
    some cmd

/-- Command built by the netem branch (lines 54-63): fixed field order
delay, jitter, loss, rate, each appended only when present. -/
def netemCmd (p : Policy) (iface : String) : String :=
  let cmd := "tc qdisc add dev " ++ iface ++ " root netem"
  let cmd := match p.delay with
    | none => cmd
    | some d => cmd ++ " delay " ++ d
  let cmd := match p.jitter with
    | none => cmd
    | some j => cmd ++ " " ++ j
  let cmd := match p.loss with
    | none => cmd
    | some l => cmd ++ " loss " ++ l
  match p.rate with
  | none => cmd
  | some r => cmd ++ " rate " ++ r

/-- Per-class commands of the htb branch (lines 70-73):
`enumerate(policy['classes'], start=10)` pairs each class with its
identifier `i`, emitting a class-add then a child-qdisc command. -/
def htbClassCmds (iface : String) : List ClassCfg → Nat → List String
  | [], _ => []
  | c :: rest, i =>
    let classid := "1:" ++ toString i
    ("tc class add dev " ++ iface ++ " parent 1:1 classid " ++ classid
      ++ " htb rate " ++ c.rate ++ " ceil " ++ c.ceil.getD c.rate)
    :: ("tc qdisc add dev " ++ iface ++ " parent " ++ classid ++ " handle "
      ++ toString i ++ ": fq_codel")
    :: htbClassCmds iface rest (i + 1)

/-- Full command list of the htb branch (lines 66-73): root qdisc,
aggregate class 1:1, then the per-class commands. `none` models the
KeyError raised when `total_bandwidth` or `classes` is absent. -/
def htbCmds (p : Policy) (iface : String) : Option (List String) :=
  match p.total_bandwidth, p.classes with
  | some tb, some cs =>
    some (("tc qdisc add dev " ++ iface ++ " root handle 1: htb default 30")
      :: ("tc class add dev " ++ iface ++ " parent 1: classid 1:1 htb rate " ++ tb)
      :: htbClassCmds iface cs 10)
  | _, _ => none

/-- Outcome of the pure command-building part of `apply_policy`
(the dispatch on `policy['type']`, lines 47-84), before any command is
executed. -/
inductive Compiled where
  | single (cmd : String)
  | multi (cmds : List String)
  | unknownType (t : String)
  | keyError (k : String)
  deriving DecidableEq, Repr

/-- The dispatch on `policy['type']` (lines 47-84): cake and netem build
one command, htb builds a list, any other type is rejected with
"Unknown policy type" before anything is executed. -/
def compilePolicy (p : Policy) (iface : String) : Compiled :=
  if p.type = "cake" then
    match cakeCmd p iface with
    | none => .keyError "bandwidth"
    | some cmd => .single cmd
  else if p.type = "netem" then
    .single (netemCmd p iface)
  else if p.type = "htb" then
    match htbCmds p iface with
    | none => .keyError "total_bandwidth/classes"
    | some cmds => .multi cmds
  else
    .unknownType p.type

/-- The htb execution loop (lines 75-78): run each command in order,
stop at the first failure. Returns the commands actually invoked (in
order, the failing one included) and, on failure, the failing command's
stderr together with the command itself. -/
def execSeq (R : String → CmdResult) : List String → List String × Option (String × String)
  | [] => ([], none)
  | c :: rest =>
    let r := R c
    if r.success then
      let (inv, fl) := execSeq R rest
      (c :: inv, fl)
    else
      ([c], some (r.error, c))

/-- The value returned by `apply_policy`, mirroring the dicts the code
returns on each path (lines 32-93); `loadException` stands for the
uncaught exception when /app/policies.json cannot be opened or parsed,
and `attrError` for an uncaught KeyError on a missing required
attribute. -/
inductive ApplyResult where
  | noShaping (policy : String)
  | notFound (policy : String)
  | cmdOk (policy : String) (cmd : String)
  | htbOk (policy : String)
  | cmdFailed (error : String) (cmd : String)
  | unknownType (t : String)
  | loadException
  | attrError (k : String)
  | badRequest
  deriving DecidableEq, Repr

/-- The success flag of the returned dict (exceptions are not success). -/
def ApplyResult.isSuccess : ApplyResult → Bool
  | .noShaping _ => true
  | .cmdOk _ _ => true
  | .htbOk _ => true
  | _ => false

/-- Whether the returned dict is the NotFound error of line 42. -/
def ApplyResult.isNotFound : ApplyResult → Bool
  | .notFound _ => true
  | _ => false

/-- Everything observable about one `apply_policy` call: the value of
`current_policy` afterwards, the returned value, and the shell commands
passed to `run_command`, in order. -/
structure ApplyOutcome where
  record : PolicyRecord
  result : ApplyResult
  invoked : List String
  deriving DecidableEq, Repr

/-- The function `apply_policy(policy_name, interface)` (lines 25-93):
clear first, special-case the name "no_shaping" before touching the
catalog, then resolve, build commands by type, execute, and update
`current_policy` only on success. -/
def apply_policy (R : String → CmdResult) (catalog : Option Catalog)
    (rec : PolicyRecord) (policy_name : String) (iface : String) : ApplyOutcome :=
  let clr := clearCmd iface
  if policy_name = "no_shaping" then
    { record := { name := policy_name, status := "active", config := some noneConfig },
      result := .noShaping policy_name,
      invoked := [clr] }
  else
    match catalog with
    | none => { record := rec, result := .loadException, invoked := [clr] }
    | some policies =>
      match lookupPolicy policies policy_name with
      | none => { record := rec, result := .notFound policy_name, invoked := [clr] }
      | some policy =>
        match compilePolicy policy iface with
        | .keyError k => { record := rec, result := .attrError k, invoked := [clr] }
        | .unknownType t => { record := rec, result := .unknownType t, invoked := [clr] }
        | .single cmd =>
          let r := R cmd
          if r.success then
            { record := { name := policy_name, status := "active", config := some policy },
              result := .cmdOk policy_name cmd,
              invoked := [clr, cmd] }
          else
            { record := rec, result := .cmdFailed r.error cmd, invoked := [clr, cmd] }
        | .multi cmds =>
          match execSeq R cmds with
          | (inv, none) =>
            { record := { name := policy_name, status := "active", config := some policy },
              result := .htbOk policy_name,
              invoked := clr :: inv }
          | (inv, some (err, cmd)) =>
            { record := rec, result := .cmdFailed err cmd, invoked := clr :: inv }

/-- The endpoint `POST /policy/apply` (lines 107-119): a missing policy
name is rejected with 400 before `apply_policy` runs; a missing
interface defaults to "eth1". -/
def apply_policy_endpoint (R : String → CmdResult) (catalog : Option Catalog)
    (rec : PolicyRecord) (policyName : Option String) (ifaceOpt : Option String) :
    ApplyOutcome :=
  let iface := ifaceOpt.getD "eth1"
  match policyName with
  | none => { record := rec, result := .badRequest, invoked := [] }
  | some name => apply_policy R catalog rec name iface

/-- Everything observable about one `POST /policy/clear` call. -/
structure ClearOutcome where
  record : PolicyRecord
  success : Bool
  clearedIface : String
  invoked : List String
  deriving DecidableEq, Repr

/-- The endpoint `POST /policy/clear` (lines 121-129): default the
interface to "eth1", run `clear_shaping` (its command result is
ignored), reset `current_policy`, and always report success. -/
def clear_policy_endpoint (_rec : PolicyRecord) (ifaceOpt : Option String) : ClearOutcome :=
  let iface := ifaceOpt.getD "eth1"
  { record := { name := "none", status := "inactive", config := none },
    success := true,
    clearedIface := iface,
    invoked := [clearCmd iface] }

/-- Everything observable about one `GET /policy/current` call. -/
structure CurrentOutcome where
  current_policy : PolicyRecord
  tc_status : String
  invoked : List String
  deriving DecidableEq, Repr

/-- The endpoint `GET /policy/current` (lines 131-138): it runs
`tc qdisc show dev eth1` with the interface hard-coded, and reports the
record unchanged together with that command's output. -/
def get_current_policy (R : String → CmdResult) (rec : PolicyRecord) : CurrentOutcome :=
  { current_policy := rec,
    tc_status := (R "tc qdisc show dev eth1").output,
    invoked := ["tc qdisc show dev eth1"] }

/-- Predicate on compile outcomes: did the dispatch hit the
"Unknown policy type" branch. -/
def Compiled.isUnknownType : Compiled → Bool
  | .unknownType _ => true
  | _ => false

/-- An htb descriptor with the attributes the htb branch reads. -/
def mkHtbPolicy (tb : String) (cs : List ClassCfg) : Policy :=
  { type := "htb", total_bandwidth := some tb, classes := some cs }

/-- A netem descriptor with an arbitrary subset of the four attributes
the netem branch reads. -/
def mkNetemPolicy (d j l r : Option String) : Policy :=
  { type := "netem", delay := d, jitter := j, loss := l, rate := r }

/-- A field of a command that is present only when the attribute is. -/
def optField (pre : String) : Option String → String
  | none => ""
  | some v => pre ++ v

/-- Spec reading of the per-class htb operations (spec section 4.2 and
section 8): the class at position k of the descriptor gets identifier
10 + k, one add-class command (rate and ceiling, ceiling defaulting to
the rate) and one add-child-discipline command attaching fq_codel to
that identifier. Stated over the enumeration of the classes so the
identifier assignment is explicit. -/
def htbSpecClassCmds (iface : String) (cs : List ClassCfg) : List String :=
  (List.enumFrom 10 cs).flatMap fun kc =>
    ["tc class add dev " ++ iface ++ " parent 1:1 classid " ++ ("1:" ++ toString kc.1)
       ++ " htb rate " ++ kc.2.rate ++ " ceil " ++ kc.2.ceil.getD kc.2.rate,
     "tc qdisc add dev " ++ iface ++ " parent " ++ ("1:" ++ toString kc.1) ++ " handle "
       ++ toString kc.1 ++ ": fq_codel"]

/-- The class identifiers assigned by the htb branch, in emission order:
the enumerate counter value paired with each class. -/
def htbAssignedIds : List ClassCfg → Nat → List Nat
  | [], _ => []
  | _ :: rest, i => i :: htbAssignedIds rest (i + 1)

/-- Oracle under which every shell command succeeds. -/
def okOracle : String → CmdResult :=
  fun _ => { success := true, output := "", error := "" }

/-- Oracle under which exactly the command "c2" fails, with stderr
"boom"; every other command succeeds. -/
def failSecondOracle : String → CmdResult :=
  fun c =>
    if c = "c2" then { success := false, output := "", error := "boom" }
    else { success := true, output := "", error := "" }

/-- A record in the Active state for some previously applied policy. -/
def activeRecP : PolicyRecord :=
  { name := "p", status := "active", config := some noneConfig }

/-- The slow_link policy of the spec scenario (section 8): a netem
descriptor with delay 100ms and loss 1 percent. -/
def slowLink : Policy :=
  { type := "netem", delay := some "100ms", loss := some "1%" }

/-- A descriptor whose type is outside every recognized set. -/
def fooPolicy : Policy := { type := "foo" }

/-- A three-class htb descriptor used as a concrete witness input. -/
def htbThree : Policy :=
  mkHtbPolicy "100mbit"
    [{ rate := "10mbit", ceil := none },
     { rate := "20mbit", ceil := some "30mbit" },
     { rate := "5mbit", ceil := none }]

/-! Helper lemmas shared by several results. -/

/-- On every path of `apply_policy` whose returned dict is not a
success, `current_policy` is left untouched. -/
theorem apply_fail_keeps_record (R : String → CmdResult) (catalog : Option Catalog)
    (rec : PolicyRecord) (name iface : String)
    (h : (apply_policy R catalog rec name iface).result.isSuccess = false) :
    (apply_policy R catalog rec name iface).record = rec := by
  revert h
  unfold apply_policy
  repeat' split
  all_goals try (rename_i cmd heq; cases hR : (R cmd).success)
  all_goals simp_all [ApplyResult.isSuccess]

/-- C1, as stated, is false on the code: from the Active state, a failed
apply (here: unknown policy name) leaves `current_policy` in its prior
Active value, so `current()` still reports the Active record, not
Inactive. -/
theorem C1_failed_apply_not_inactive :
    (apply_policy okOracle (some []) activeRecP "missing" "eth1").result.isSuccess = false
    ∧ (get_current_policy okOracle
        (apply_policy okOracle (some []) activeRecP "missing" "eth1").record).current_policy
      = activeRecP
    ∧ activeRecP.status ≠ "inactive" := by
  refine ⟨rfl, rfl, ?_⟩
  decide

/-- C1 amended: if the system is in state Active(P) and apply(Q) fails,
then afterwards `current()` still reports the unchanged Active(P)
record (status "active"), not the Inactive state. -/
theorem C1_failed_apply_keeps_active (R : String → CmdResult) (catalog : Option Catalog)
    (rec : PolicyRecord) (name iface : String)
    (hactive : rec.status = "active")
    (hfail : (apply_policy R catalog rec name iface).result.isSuccess = false) :
    (get_current_policy R (apply_policy R catalog rec name iface).record).current_policy = rec
    ∧ (get_current_policy R (apply_policy R catalog rec name iface).record).current_policy.status
      = "active" := by
  have h := apply_fail_keeps_record R catalog rec name iface hfail
  constructor
  · simpa [get_current_policy] using h
  · simp [get_current_policy, h, hactive]

/-- Witness for C1 amended at a concrete input: a NotFound apply from an
Active record leaves current() reporting that Active record. -/
theorem C1_failed_apply_keeps_active_witness :
    (get_current_policy okOracle
        (apply_policy okOracle (some []) activeRecP "missing" "eth1").record).current_policy
      = activeRecP
    ∧ (get_current_policy okOracle
        (apply_policy okOracle (some []) activeRecP "missing" "eth1").record).current_policy.status
      = "active" :=
  C1_failed_apply_keeps_active okOracle (some []) activeRecP "missing" "eth1" rfl rfl

/-- C2: every failed apply (any failure reason) leaves the record's
name and status exactly as they were, and the whole record — its
config field included — equal to the prior record, so it never
references the failed descriptor as active. -/
theorem C2_failed_apply_record_unchanged (R : String → CmdResult) (catalog : Option Catalog)
    (rec : PolicyRecord) (name iface : String)
    (hfail : (apply_policy R catalog rec name iface).result.isSuccess = false) :
    (apply_policy R catalog rec name iface).record.name = rec.name
    ∧ (apply_policy R catalog rec name iface).record.status = rec.status
    ∧ (apply_policy R catalog rec name iface).record = rec := by
  have h := apply_fail_keeps_record R catalog rec name iface hfail
  exact ⟨by rw [h], by rw [h], h⟩

/-- Witness for C2 at the spec scenario: apply("missing_policy","eth1")
against a catalog without that name returns NotFound and leaves the
initial record unchanged. -/
theorem C2_failed_apply_record_unchanged_witness :
    (apply_policy okOracle (some [("slow_link", slowLink)]) initialRecord "missing_policy" "eth1").record.name
      = initialRecord.name
    ∧ (apply_policy okOracle (some [("slow_link", slowLink)]) initialRecord "missing_policy" "eth1").record.status
      = initialRecord.status
    ∧ (apply_policy okOracle (some [("slow_link", slowLink)]) initialRecord "missing_policy" "eth1").record
      = initialRecord :=
  C2_failed_apply_record_unchanged okOracle (some [("slow_link", slowLink)])
    initialRecord "missing_policy" "eth1" (by decide)

/-- C3, as stated, is false on the code: `apply_policy` calls
`clear_shaping` before reading the catalog, so a NotFound apply has
already issued the root-deleting command — the interface's existing
root configuration is removed, not left unchanged. -/
theorem C3_compile_error_still_clears :
    (apply_policy okOracle (some []) initialRecord "missing_policy" "eth1").result
      = .notFound "missing_policy"
    ∧ (apply_policy okOracle (some []) initialRecord "missing_policy" "eth1").invoked
      = ["tc qdisc del dev eth1 root 2>/dev/null || true"] :=
  ⟨rfl, rfl⟩

/-- C3 amended: a call that fails at the compilation stage (unknown
policy name or unrecognized kind) performs exactly one
scheduler-mutating operation — the unconditional initial clear of the
interface's root configuration — and nothing else. -/
theorem C3_compile_error_invokes_only_clear (R : String → CmdResult)
    (catalog : Option Catalog) (rec : PolicyRecord) (name iface : String)
    (h : (apply_policy R catalog rec name iface).result = .notFound name
      ∨ (∃ t, (apply_policy R catalog rec name iface).result = .unknownType t)) :
    (apply_policy R catalog rec name iface).invoked = [clearCmd iface] := by
  revert h
  unfold apply_policy
  repeat' split
  all_goals try (rename_i cmd heq; cases hR : (R cmd).success)
  all_goals simp_all

/-- Witness for C3 amended: the NotFound apply above invoked exactly
the clear command. -/
theorem C3_compile_error_invokes_only_clear_witness :
    (apply_policy okOracle (some []) initialRecord "missing_policy" "eth1").invoked
      = [clearCmd "eth1"] :=
  C3_compile_error_invokes_only_clear okOracle (some []) initialRecord
    "missing_policy" "eth1" (Or.inl rfl)

/-- C5, as stated, is false on the code: the dispatch has no branch for
the kind none — a catalog descriptor of type "none" falls into the
"Unknown policy type" branch, so compilation does fail with an
unsupported-kind error for a kind inside the claimed safe set. -/
theorem C5_none_kind_rejected :
    compilePolicy { type := "none" } "eth1" = .unknownType "none" :=
  rfl

/-- C5 amended: compilation never hits the unknown-type branch for a
kind in the set consisting of priority-fair-queue ("cake"),
network-emulation ("netem") and hierarchical-bandwidth ("htb"), and
always fails with an unknown-type error naming the kind for every kind
outside that three-element set — including the kind "none", which is
applied only through the special policy name "no_shaping" and never
through the dispatch. -/
theorem C5_unknown_type_iff (p : Policy) (iface : String) :
    ((p.type = "cake" ∨ p.type = "netem" ∨ p.type = "htb") →
      (compilePolicy p iface).isUnknownType = false)
    ∧ (p.type ≠ "cake" → p.type ≠ "netem" → p.type ≠ "htb" →
      compilePolicy p iface = .unknownType p.type) := by
  constructor
  · intro h
    unfold compilePolicy
    rcases h with h | h | h <;> simp [h]
    · rcases cakeCmd p iface <;> simp [Compiled.isUnknownType]
    · simp [Compiled.isUnknownType]
    · rcases htbCmds p iface <;> simp [Compiled.isUnknownType]
  · intro h1 h2 h3
    unfold compilePolicy
    simp [h1, h2, h3]

/-- Witness for C5 amended: the netem kind is never reported as an
unknown type, and the out-of-set kind "foo" always is, with the kind
named in the error. -/
theorem C5_unknown_type_iff_witness :
    (compilePolicy slowLink "eth1").isUnknownType = false
    ∧ compilePolicy fooPolicy "eth1" = .unknownType "foo" :=
  ⟨(C5_unknown_type_iff slowLink "eth1").1 (Or.inr (Or.inl rfl)),
   (C5_unknown_type_iff fooPolicy "eth1").2 (by decide) (by decide) (by decide)⟩

/-- C9: applying the policy name "no_shaping" is dispatched on the name
before the catalog file is ever opened: for every catalog — including
a catalog missing that name and a catalog whose load raised — the call
succeeds, sets the record to Active("no_shaping"), and invokes only the
clear command. In particular it never returns NotFound. -/
theorem C9_no_shaping_bypasses_catalog (R : String → CmdResult)
    (catalog : Option Catalog) (rec : PolicyRecord) (iface : String) :
    apply_policy R catalog rec "no_shaping" iface =
      { record := { name := "no_shaping", status := "active", config := some noneConfig },
        result := .noShaping "no_shaping",
        invoked := [clearCmd iface] }
    ∧ (apply_policy R catalog rec "no_shaping" iface).result.isSuccess = true
    ∧ (apply_policy R catalog rec "no_shaping" iface).result.isNotFound = false := by
  refine ⟨?_, ?_, ?_⟩ <;>
    simp [apply_policy, ApplyResult.isSuccess, ApplyResult.isNotFound]

/-- C10: when no interface is given, the apply and clear endpoints
default to "eth1" (so the whole observable outcome equals the one with
"eth1" passed explicitly, and the clear acts on "eth1"); and the
current-policy endpoint always queries the scheduler with
"tc qdisc show dev eth1", whatever interface any earlier apply
targeted. -/
theorem C10_eth1_defaults (R : String → CmdResult) (catalog : Option Catalog)
    (rec rec2 : PolicyRecord) (p : Option String) :
    apply_policy_endpoint R catalog rec p none
      = apply_policy_endpoint R catalog rec p (some "eth1")
    ∧ clear_policy_endpoint rec none = clear_policy_endpoint rec (some "eth1")
    ∧ (clear_policy_endpoint rec none).clearedIface = "eth1"
    ∧ (clear_policy_endpoint rec none).invoked = [clearCmd "eth1"]
    ∧ (get_current_policy R rec2).invoked = ["tc qdisc show dev eth1"]
    ∧ ∀ (name iface : String),
        (get_current_policy R (apply_policy R catalog rec name iface).record).invoked
          = ["tc qdisc show dev eth1"] :=
  ⟨rfl, rfl, rfl, rfl, rfl, fun _ _ => rfl⟩

/-- C6: if every command before position k succeeds and the command at
position k fails, the execution loop invokes exactly the commands up to
and including position k — nothing after it — and its failure value
carries the failing command and that command's own error output. -/
theorem C6_stop_on_first_failure (R : String → CmdResult) :
    ∀ (k : Nat) (cmds : List String) (cfail : String) (rest2 : List String),
    (∀ c ∈ cmds.take k, (R c).success = true) →
    cmds.drop k = cfail :: rest2 →
    (R cfail).success = false →
    execSeq R cmds = (cmds.take k ++ [cfail], some ((R cfail).error, cfail)) := by
  intro k
  induction k with
  | zero =>
    intro cmds cfail rest2 _ hsplit hfail
    simp only [List.drop_zero] at hsplit
    subst hsplit
    simp [execSeq, hfail]
  | succ k ih =>
    intro cmds cfail rest2 hpre hsplit hfail
    cases cmds with
    | nil => simp at hsplit
    | cons c rest =>
      have hc : (R c).success = true := hpre c (by simp)
      have hrest := ih rest cfail rest2
        (fun x hx => hpre x (by simp [List.take_succ_cons, hx]))
        (by simpa using hsplit) hfail
      simp [execSeq, hc, hrest]

/-- Witness for C6: under an oracle failing exactly on the second
command, a four-command sequence invokes only the first two commands
and reports the second command with its error. -/
theorem C6_stop_on_first_failure_witness :
    execSeq failSecondOracle ["c1", "c2", "c3", "c4"]
      = (["c1", "c2"], some ("boom", "c2")) := by
  rw [C6_stop_on_first_failure failSecondOracle 1 ["c1", "c2", "c3", "c4"] "c2"
    ["c3", "c4"] (by decide) (by decide) (by decide)]
  rfl

/-- C7: after an apply that returns success the record is
Active(name) whose config is the descriptor that was applied — the
synthesized none-config for the special name "no_shaping", otherwise
the descriptor the catalog resolved for the name — and after a clear
(which always returns success) the record is the Inactive one. -/
theorem C7_success_updates_record (R : String → CmdResult) (catalog : Option Catalog)
    (rec : PolicyRecord) (name iface : String) (ifaceOpt : Option String)
    (hok : (apply_policy R catalog rec name iface).result.isSuccess = true) :
    ((apply_policy R catalog rec name iface).record.name = name
     ∧ (apply_policy R catalog rec name iface).record.status = "active"
     ∧ ((name = "no_shaping"
          ∧ (apply_policy R catalog rec name iface).record.config = some noneConfig)
        ∨ (∃ cat d, catalog = some cat ∧ lookupPolicy cat name = some d
            ∧ (apply_policy R catalog rec name iface).record.config = some d)))
    ∧ (clear_policy_endpoint rec ifaceOpt).success = true
    ∧ (clear_policy_endpoint rec ifaceOpt).record
        = { name := "none", status := "inactive", config := none } := by
  refine ⟨?_, rfl, rfl⟩
  revert hok
  unfold apply_policy
  repeat' split
  all_goals try (rename_i cmd heq; cases hR : (R cmd).success)
  all_goals simp_all [ApplyResult.isSuccess]

/-- Witness for C7 at the spec scenario: applying slow_link from a
one-entry catalog succeeds and the record becomes Active("slow_link")
with the slow_link descriptor as config; a clear resets the record. -/
theorem C7_success_updates_record_witness :
    ((apply_policy okOracle (some [("slow_link", slowLink)]) initialRecord
        "slow_link" "eth1").record.name = "slow_link"
     ∧ (apply_policy okOracle (some [("slow_link", slowLink)]) initialRecord
        "slow_link" "eth1").record.status = "active"
     ∧ (("slow_link" = "no_shaping"
          ∧ (apply_policy okOracle (some [("slow_link", slowLink)]) initialRecord
              "slow_link" "eth1").record.config = some noneConfig)
        ∨ (∃ cat d, (some [("slow_link", slowLink)] : Option Catalog) = some cat
            ∧ lookupPolicy cat "slow_link" = some d
            ∧ (apply_policy okOracle (some [("slow_link", slowLink)]) initialRecord
                "slow_link" "eth1").record.config = some d)))
    ∧ (clear_policy_endpoint initialRecord none).success = true
    ∧ (clear_policy_endpoint initialRecord none).record
        = { name := "none", status := "inactive", config := none } :=
  C7_success_updates_record okOracle (some [("slow_link", slowLink)]) initialRecord
    "slow_link" "eth1" none (by decide)

/-- The source's per-class command generation agrees, for every start
value of the enumerate counter, with the enumeration-indexed reading of
the spec. -/
theorem htbClassCmds_eq_enumFrom (iface : String) (cs : List ClassCfg) :
    ∀ n, htbClassCmds iface cs n =
      (List.enumFrom n cs).flatMap fun kc =>
        ["tc class add dev " ++ iface ++ " parent 1:1 classid " ++ ("1:" ++ toString kc.1)
           ++ " htb rate " ++ kc.2.rate ++ " ceil " ++ kc.2.ceil.getD kc.2.rate,
         "tc qdisc add dev " ++ iface ++ " parent " ++ ("1:" ++ toString kc.1) ++ " handle "
           ++ toString kc.1 ++ ": fq_codel"] := by
  induction cs with
  | nil => intro n; simp [htbClassCmds]
  | cons c rest ih => intro n; simp [htbClassCmds, List.enumFrom, ih (n + 1)]

/-- The per-class command list always has two commands per class. -/
theorem htbClassCmds_length (iface : String) (cs : List ClassCfg) :
    ∀ n, (htbClassCmds iface cs n).length = 2 * cs.length := by
  induction cs with
  | nil => intro n; simp [htbClassCmds]
  | cons c rest ih =>
    intro n
    simp [htbClassCmds, ih (n + 1)]
    ring

/-- The enumerate counter assigns the identifiers n, n+1, ... in
descriptor order. -/
theorem htbAssignedIds_eq_range (cs : List ClassCfg) :
    ∀ n, htbAssignedIds cs n = List.range' n cs.length := by
  induction cs with
  | nil => intro n; simp [htbAssignedIds]
  | cons c rest ih => intro n; simp [htbAssignedIds, ih (n + 1), List.range'_succ]

/-- C4: compiling an htb descriptor with N classes yields the multi
sequence of exactly 2 + 2N commands — root discipline, aggregate class,
then per class in descriptor order one add-class and one
add-child-discipline — with identifiers 10, 11, ..., 10+N-1 assigned in
descriptor order, none reused, and recompilation yields an identical
sequence. -/
theorem C4_htb_compile_shape (tb iface : String) (cs : List ClassCfg) :
    compilePolicy (mkHtbPolicy tb cs) iface
      = .multi (("tc qdisc add dev " ++ iface ++ " root handle 1: htb default 30")
          :: ("tc class add dev " ++ iface ++ " parent 1: classid 1:1 htb rate " ++ tb)
          :: htbSpecClassCmds iface cs)
    ∧ ((htbCmds (mkHtbPolicy tb cs) iface).getD []).length = 2 + 2 * cs.length
    ∧ htbAssignedIds cs 10 = List.range' 10 cs.length
    ∧ (htbAssignedIds cs 10).Nodup
    ∧ compilePolicy (mkHtbPolicy tb cs) iface = compilePolicy (mkHtbPolicy tb cs) iface := by
  refine ⟨?_, ?_, htbAssignedIds_eq_range cs 10, ?_, rfl⟩
  · simp [compilePolicy, mkHtbPolicy, htbCmds, htbSpecClassCmds,
      htbClassCmds_eq_enumFrom iface cs 10]
  · simp [mkHtbPolicy, htbCmds, htbClassCmds_length iface cs 10]
    ring
  · rw [htbAssignedIds_eq_range cs 10]
    exact List.nodup_range' 10 cs.length

/-- C8: compiling a netem descriptor yields exactly one root-discipline
command whose fields appear in the fixed order delay, jitter, loss,
rate, each omitted when absent, for every subset of present
attributes. -/
theorem C8_netem_fixed_field_order (iface : String) (d j l r : Option String) :
    compilePolicy (mkNetemPolicy d j l r) iface
      = .single ("tc qdisc add dev " ++ iface ++ " root netem"
          ++ optField " delay " d ++ optField " " j ++ optField " loss " l
          ++ optField " rate " r) := by
  cases d <;> cases j <;> cases l <;> cases r <;>
    simp [compilePolicy, mkNetemPolicy, netemCmd, optField, String.append_assoc] <;>
    simp [← String.append_assoc]
